import Mathlib
/-!
Verification development for the medi-clear backend (FastAPI, Python).

The development shallowly embeds the model-fallback client and its helpers
from `src/backend/app/api/v1/chat.py`, `symptom_checker.py` and `reports.py`:

* the HTTP transport (`httpx` POST + `response.json()`) is abstracted as a
  function `attempt : Payload -> AttemptOutcome` supplied per run: the code
  under test never inspects the network beyond `raised an exception carrying a
  message` versus `returned a parsed JSON body`;
* `json.loads` (Python standard library, not repository code) is abstracted
  as a parameter `loads : String -> Except String JsonVal`, the error being
  the exception text `str(e)`;
* Python strings are Lean `String`s (lists of characters); slicing `s[a:]`,
  `s[:-b]`, `s[:n]` is `List.drop` / take on `String.data`;
* exception objects are represented by their `str(...)` rendering, which is
  all the source ever uses of them (f-string interpolation into details);
* floats that only appear as fixed generation parameters (temperature,
  max_tokens, stream) are not modelled: no claim and no control flow
  depends on them; the confidence arithmetic of `calculate_confidence` is
  modelled over `ℚ` (exact decimal arithmetic).
-/
/-- A parsed JSON value, as produced by `json.loads`.  Numbers are modelled
as integers (every number the validated schemas accept is integral). -/
inductive JsonVal : Type where
  | str (s : String)
  | num (n : Int)
  | bool (b : Bool)
  | null
  | arr (xs : List JsonVal)
  | obj (fields : List (String × JsonVal))
/-- One `{role, content}` message entry of a chat-completions request. -/
structure ChatMsg where
  role : String
  content : String
deriving DecidableEq
/-- A FastAPI `HTTPException`: status code plus detail string. -/
structure HttpError where
  status : Nat
  detail : String
deriving DecidableEq
/-- The `message` object of one completion choice. -/
structure RespMessage where
  content : String
deriving DecidableEq
/-- One element of the `choices` array of a completions response. -/
structure Choice where
  message : RespMessage
deriving DecidableEq
/-- A transport-success response body (`response.json()`), of the expected
shape `\x7bchoices: [\x7bmessage: \x7bcontent: string\x7d\x7d]\x7d`. -/
structure Body where
  choices : List Choice
deriving DecidableEq
/-- Outcome of one model attempt at the transport level: `fail e` covers both
`httpx.HTTPStatusError` (`raise_for_status`) and any other exception raised
by the POST or by `response.json()`, carrying `str(e)`; `ok body` is a 2xx
response whose body parsed. Both loops treat the two `except` arms
identically (`last_error = e; continue`). -/
inductive AttemptOutcome : Type where
  | fail (e : String)
  | ok (body : Body)
deriving DecidableEq
/-- The JSON request payload POSTed for one model attempt.  Fixed numeric
generation parameters (temperature, max_tokens, stream) are not modelled.
`response_format` is `some ("json_object")` when the source attaches
`\x7b"type": "json_object"\x7d`. -/
structure Payload where
  model : String
  messages : List ChatMsg
  response_format : Option String
deriving DecidableEq
/-- Python `str(x)` for `x : Optional[str]`: `None` prints as the text `None`. -/
def pyStr : Option String → String
  | none => "None"
  | some s => s
/-- The whitespace set of Python `str.strip()`. -/
def pyWhitespace (c : Char) : Bool :=
  c = ' ' || c = '\t' || c = '\n' || c = '\r' || c = '\x0b' || c = '\x0c'
/-- Python `str.strip()` on a character list: drop whitespace from both ends. -/
def pyStripList (l : List Char) : List Char :=
  ((l.dropWhile pyWhitespace).reverse.dropWhile pyWhitespace).reverse
/-- Python `str.strip()`. -/
def pyStrip (s : String) : String :=
  String.mk (pyStripList s.data)
/-- Python `needle in hay` on character lists (contiguous substring). -/
def containsSub (needle : List Char) : List Char → Bool
  | [] => needle.isEmpty
  | c :: rest => needle.isPrefixOf (c :: rest) || containsSub needle rest
/-- Python `needle in hay` for strings. -/
def pyInStr (needle hay : String) : Bool :=
  containsSub needle.data hay.data
/-- Python `s.lower()`, character-wise (ASCII case mapping; every string the
source lowers before matching is matched against ASCII needles). -/
def pyLower (s : String) : String :=
  String.mk (s.data.map Char.toLower)
/-- Python truthiness of `Optional[str]`: `None` and `""` are falsy. -/
def truthy : Option String → Bool
  | none => false
  | some s => !(s = "")
/-- Python `s[:n]` (first `n` characters). -/
def pySlice (s : String) (n : Nat) : String :=
  String.mk (s.data.take n)
/-- `if raw_json_text.startswith("```json"): raw_json_text = raw_json_text[7:]`
and its `elif` for an untagged fence (`symptom_checker.py` lines 182-185). -/
def dropLeadFence (r : List Char) : List Char :=
  if ("```json".data.isPrefixOf r) then r.drop 7
  else if ("```".data.isPrefixOf r) then r.drop 3
  else r
/-- `if raw_json_text.endswith("```"): raw_json_text = raw_json_text[:-3]`
(`symptom_checker.py` lines 186-187). -/
def dropTrailFence (r : List Char) : List Char :=
  if ("```".data.isSuffixOf r) then r.take (r.length - 3) else r
/-- The markdown code-fence cleanup applied to raw model text, on character
lists.  Mirrors `symptom_checker.py` lines 179-188 and the identical block
in `reports.py` lines 178-186: if the stripped text starts with a fence,
strip, drop a leading tagged or untagged fence, drop a trailing fence, and
strip again; otherwise the text is returned unchanged. -/
def stripFencesList (raw : List Char) : List Char :=
  if ("```".data.isPrefixOf (pyStripList raw)) then
    pyStripList (dropTrailFence (dropLeadFence (pyStripList raw)))
  else raw
/-- The markdown code-fence cleanup on strings (the response normalizer). -/
def stripFences (s : String) : String :=
  String.mk (stripFencesList s.data)
/-- Dict lookup `fields[key]` over the association list of a JSON object. -/
def lookupField : List (String × JsonVal) → String → Option JsonVal
  | [], _ => none
  | (k, v) :: rest, key => if k = key then some v else lookupField rest key
/-- The configured model list of `chat.py::call_glm_model` (lines 56-62). -/
def models_to_try_chat : List String :=
  ["zhipuai/glm-4-plus", "zhipuai/glm-4-0520", "zhipuai/glm-4",
   "openai/gpt-4o", "openai/gpt-3.5-turbo"]
/-- The configured model list of `symptom_checker.py::analyze_symptoms`
(lines 86-91). -/
def models_to_try_symptom : List String :=
  ["zhipuai/glm-4-plus", "zhipuai/glm-4-0520", "zhipuai/glm-4",
   "openai/gpt-3.5-turbo"]
/-- The configured model list of `reports.py::call_glm_for_analysis`
(lines 137-142). -/
def models_to_try_reports : List String :=
  ["zhipuai/glm-4-plus", "zhipuai/glm-4-0520", "zhipuai/glm-4",
   "openai/gpt-3.5-turbo"]
/-- The request payload built per attempt in `chat.py` (lines 68-74):
no `response_format` is ever attached. -/
def buildChatPayload (model_name : String) (messages : List ChatMsg) : Payload :=
  ⟨model_name, messages, none⟩
/-- The request payload built per attempt in `reports.py` (lines 157-162):
no `response_format` is ever attached. -/
def buildReportsPayload (model_name : String) (messages : List ChatMsg) : Payload :=
  ⟨model_name, messages, none⟩
/-- The request payload built per attempt in `symptom_checker.py`
(lines 102-121): `response_format = \x7b"type": "json_object"\x7d` is attached
exactly when the model name contains `gpt` or `deepseek` (lower-cased). -/
def buildSymptomPayload (model_name : String) (sys usr : String) : Payload :=
  if pyInStr ("gpt") (pyLower model_name) || pyInStr ("deepseek") (pyLower model_name) then
    ⟨model_name, [⟨"system", sys⟩, ⟨"user", usr⟩], some ("json_object")⟩
  else
    ⟨model_name, [⟨"system", sys⟩, ⟨"user", usr⟩], none⟩
/-- `last_error = e; continue`: prepend the payload just attempted to the
request trace of the rest of the loop, keeping its result. -/
def stepFail (p : Payload) (r : Except HttpError α × List Payload) :
    Except HttpError α × List Payload :=
  (r.1, p :: r.2)
/-- The fallback loop of `chat.py::call_glm_model` (lines 64-99), after the
API-key check.  The second component is the trace of request payloads
actually POSTed, in order.  On transport success the first-choice message
content is returned from inside the loop; with an empty `choices` array the
subscript raises `IndexError` ("list index out of range"), which the bare
`except Exception` swallows before continuing. -/
def chatLoopGo (attempt : Payload → AttemptOutcome) (messages : List ChatMsg) :
    List String → Option String → Except HttpError String × List Payload
  | [], lastError =>
      (Except.error ⟨500, "All GLM models failed. Last error: " ++ pyStr lastError⟩, [])
  | m :: rest, lastError =>
      match attempt (buildChatPayload m messages) with
      | AttemptOutcome.ok body =>
          match body.choices with
          | c :: _ => (Except.ok c.message.content, [buildChatPayload m messages])
          | [] => stepFail (buildChatPayload m messages)
              (chatLoopGo attempt messages rest (some ("list index out of range")))
      | AttemptOutcome.fail e => stepFail (buildChatPayload m messages)
          (chatLoopGo attempt messages rest (some e))
/-- `chat.py::call_glm_model` (lines 41-99): missing/empty API key fails with
a 500 before any request is constructed; otherwise the fallback loop runs
over the configured model list. -/
def call_glm_model (apiKey : Option String) (attempt : Payload → AttemptOutcome)
    (messages : List ChatMsg) : Except HttpError String × List Payload :=
  if truthy apiKey then
    chatLoopGo attempt messages models_to_try_chat none
  else
    (Except.error ⟨500, "OPENROUTER_API_KEY not configured"⟩, [])
/-- The fallback loop of `symptom_checker.py::analyze_symptoms`
(lines 93-162).  On transport success the loop `break`s carrying the parsed
body (`result`); content extraction happens after the loop.  The `for`-`else`
exhaustion arm raises a 500 naming only the last error. -/
def symptomLoopGo (attempt : Payload → AttemptOutcome) (sys usr : String) :
    List String → Option String → Except HttpError Body × List Payload
  | [], lastError =>
      (Except.error ⟨500,
        "All GLM models failed. Please check your API key. Last error: " ++ pyStr lastError⟩, [])
  | m :: rest, lastError =>
      match attempt (buildSymptomPayload m sys usr) with
      | AttemptOutcome.ok body => (Except.ok body, [buildSymptomPayload m sys usr])
      | AttemptOutcome.fail e => stepFail (buildSymptomPayload m sys usr)
          (symptomLoopGo attempt sys usr rest (some e))
/-- The request body of `POST /symptoms/analyze` (`SymptomRequest`,
`symptom_checker.py` lines 19-24).  Pydantic bounds (age 0-120,
severity 1-10) are request-validation concerns not needed by any claim;
ages and severities are naturals as in the f-string rendering of the source. -/
structure SymptomRequest where
  symptoms : String
  age : Nat
  gender : String
  duration : String
  severity : Nat
deriving DecidableEq
/-- One entry of `possible_conditions` (`PossibleCondition`, lines 26-29). -/
structure PossibleCondition where
  condition : String
  probability : Int
  description : String
deriving DecidableEq
/-- The response schema (`SymptomAssessment`, lines 31-39). -/
structure SymptomAssessment where
  assessment_id : String
  urgency_level : String
  urgency_score : Int
  possible_conditions : List PossibleCondition
  recommended_tests : List String
  action_items : List String
  warning_signs : List String
  when_to_seek_care : String
deriving DecidableEq
/-- The system instruction of `analyze_symptoms` (lines 55-71), verbatim. -/
def system_instruction : String :=
  "You are a medical AI assistant providing preliminary, non-diagnostic guidance. " ++
  "Analyze the user\x27s symptoms and generate a comprehensive assessment strictly in JSON format. " ++
  "Your response MUST be valid JSON that conforms to this exact structure:\n" ++
  "\x7b\n" ++
  "  \"assessment_id\": \"string\",\n" ++
  "  \"urgency_level\": \"NORMAL or MODERATE or URGENT\",\n" ++
  "  \"urgency_score\": number (1-100),\n" ++
  "  \"possible_conditions\": [\x7b\"condition\": \"string\", \"probability\": number (0-100), \"description\": \"string\"\x7d],\n" ++
  "  \"recommended_tests\": [\"string\"],\n" ++
  "  \"action_items\": [\"string\"],\n" ++
  "  \"warning_signs\": [\"string\"],\n" ++
  "  \"when_to_seek_care\": \"string\"\n" ++
  "\x7d\n" ++
  "Do not include any text, markdown, or explanation outside the JSON object. " ++
  "Return ONLY valid JSON."
/-- The user prompt of `analyze_symptoms` (lines 73-83), verbatim: the
freshly generated assessment id is pinned into the prompt text. -/
def user_prompt (data : SymptomRequest) (assessment_id : String) : String :=
  "\nAnalyze the following patient data for a symptom assessment:\n- Symptoms Description: " ++
  data.symptoms ++
  "\n- Age: " ++ toString data.age ++ " years, Gender: " ++ data.gender ++
  "\n- Duration: " ++ data.duration ++
  "\n- Severity: " ++ toString data.severity ++ "/10" ++ "\n\n" ++
  "The assessment_id field MUST be set to: " ++ assessment_id ++
  "\n\nProvide your response as a valid JSON object only.\n"
/-- Pydantic validation of one required string field.  Error texts stand in
for the renderings of pydantic; only success/failure and which field failed are
significant to the control flow of the source. -/
def reqStr (fields : List (String × JsonVal)) (name : String) : Except String String :=
  match lookupField fields name with
  | some (JsonVal.str s) => Except.ok s
  | _ => Except.error ("Field required or invalid: " ++ name)
/-- Pydantic validation of a required int field with `ge`/`le` bounds. -/
def reqIntBounded (fields : List (String × JsonVal)) (name : String) (lo hi : Int) :
    Except String Int :=
  match lookupField fields name with
  | some (JsonVal.num n) =>
      if lo ≤ n ∧ n ≤ hi then Except.ok n
      else Except.error ("Field out of range: " ++ name)
  | _ => Except.error ("Field required or invalid: " ++ name)
/-- Pydantic validation of one `PossibleCondition` object. -/
def parseCond : JsonVal → Option PossibleCondition
  | JsonVal.obj f =>
      match lookupField f ("condition"), lookupField f ("probability"),
            lookupField f ("description") with
      | some (JsonVal.str c), some (JsonVal.num p), some (JsonVal.str d) =>
          if 0 ≤ p ∧ p ≤ 100 then some ⟨c, p, d⟩ else none
      | _, _, _ => none
  | _ => none
/-- Pydantic validation of a `List[PossibleCondition]` value. -/
def parseCondList : List JsonVal → Option (List PossibleCondition)
  | [] => some []
  | v :: rest =>
      match parseCond v, parseCondList rest with
      | some c, some l => some (c :: l)
      | _, _ => none
/-- Pydantic validation of a `List[str]` value. -/
def parseStrList : List JsonVal → Option (List String)
  | [] => some []
  | JsonVal.str s :: rest =>
      match parseStrList rest with
      | some l => some (s :: l)
      | none => none
  | _ => none
/-- Pydantic validation of a required `List[PossibleCondition]` field. -/
def reqConds (fields : List (String × JsonVal)) (name : String) :
    Except String (List PossibleCondition) :=
  match lookupField fields name with
  | some (JsonVal.arr xs) =>
      match parseCondList xs with
      | some l => Except.ok l
      | none => Except.error ("Field required or invalid: " ++ name)
  | _ => Except.error ("Field required or invalid: " ++ name)
/-- Pydantic validation of a required `List[str]` field. -/
def reqStrs (fields : List (String × JsonVal)) (name : String) :
    Except String (List String) :=
  match lookupField fields name with
  | some (JsonVal.arr xs) =>
      match parseStrList xs with
      | some l => Except.ok l
      | none => Except.error ("Field required or invalid: " ++ name)
  | _ => Except.error ("Field required or invalid: " ++ name)
/-- `SymptomAssessment(**assessment_data)` (line 193): validate the parsed
JSON object against the schema, field by field in declaration order; any
missing or ill-typed required field raises a validation error (pydantic
reports all failures at once; the first-failure message modelled here is
equivalent for control flow).  Extra keys are ignored, as by the pydantic
default config. -/
def validateSymptomAssessment (fields : List (String × JsonVal)) :
    Except String SymptomAssessment := do
  let aid ← reqStr fields ("assessment_id")
  let ul ← reqStr fields ("urgency_level")
  let us ← reqIntBounded fields ("urgency_score") 1 100
  let pc ← reqConds fields ("possible_conditions")
  let rt ← reqStrs fields ("recommended_tests")
  let ai ← reqStrs fields ("action_items")
  let ws ← reqStrs fields ("warning_signs")
  let wc ← reqStr fields ("when_to_seek_care")
  pure ⟨aid, ul, us, pc, rt, ai, ws, wc⟩
/-- The keyword scan of the generic `except Exception` arm
(`symptom_checker.py` lines 214-215). -/
def keywordCheck (msg : String) : Bool :=
  pyInStr ("quota") (pyLower msg) || pyInStr ("api key") (pyLower msg) ||
  pyInStr ("authentication") (pyLower msg) || pyInStr ("rate limit") (pyLower msg)
/-- The generic `except Exception` arm (lines 211-218): 502 when the message
mentions quota/key/authentication/rate-limit, else 500. -/
def genericWrap (msg : String) : HttpError :=
  if keywordCheck msg then
    ⟨502, "OpenRouter API Error: Check your API key or quota. Details: " ++ msg⟩
  else
    ⟨500, "An unexpected error occurred during API call: " ++ msg⟩
/-- Post-loop processing of `analyze_symptoms` (lines 164-218): extraction of
the first-choice content, fence cleanup, `json.loads`, schema validation.
The empty-`choices` `HTTPException` (line 167) is itself caught by the
generic `except Exception` arm and re-wrapped; its interpolated repr of the
response dict is elided here (no claim reaches that path).  A `json.loads`
failure is answered with a 500 whose detail carries `raw_json_text[:1000]`,
where `raw_json_text` has already been fence-stripped.  A non-dict parse
makes `SymptomAssessment(**...)` raise `TypeError`, landing in the generic
arm. -/
def symptomPost (loads : String → Except String JsonVal) (result : Body) :
    Except HttpError SymptomAssessment :=
  match result.choices with
  | [] => Except.error (genericWrap ("500: Unexpected API response format"))
  | c :: _ =>
      let cleaned := stripFences c.message.content
      match loads cleaned with
      | Except.error _ =>
          Except.error ⟨500,
            "AI returned malformed JSON. Raw response (truncated): " ++ pySlice cleaned 1000⟩
      | Except.ok (JsonVal.obj fields) =>
          match validateSymptomAssessment fields with
          | Except.ok a => Except.ok a
          | Except.error msg => Except.error (genericWrap msg)
      | Except.ok _ =>
          Except.error (genericWrap ("argument after ** must be a mapping"))
/-- `symptom_checker.py::analyze_symptoms` (lines 43-218) end to end:
API-key check, prompt assembly with the freshly generated `assessment_id`
(a `uuid4` string, passed in as a parameter), fallback loop, post-loop
extraction/parsing/validation.  The second component is the trace of
request payloads POSTed. -/
def analyze_symptoms (apiKey : Option String) (assessment_id : String)
    (loads : String → Except String JsonVal) (attempt : Payload → AttemptOutcome)
    (data : SymptomRequest) : Except HttpError SymptomAssessment × List Payload :=
  if truthy apiKey then
    match symptomLoopGo attempt system_instruction (user_prompt data assessment_id)
        models_to_try_symptom none with
    | (Except.ok body, tr) => (symptomPost loads body, tr)
    | (Except.error e, tr) => (Except.error e, tr)
  else
    (Except.error ⟨502, "OpenRouter API Key is not configured in .env"⟩, [])
/-- The fallback loop of `reports.py::call_glm_for_analysis` (lines 144-211).
Unlike `analyze_symptoms`, content extraction, fence cleanup and
`json.loads` all sit inside the per-model `try`: a `json.JSONDecodeError`
is recorded in `last_error` and the loop `continue`s to the next model. -/
def reportsLoopGo (loads : String → Except String JsonVal)
    (attempt : Payload → AttemptOutcome) (messages : List ChatMsg) :
    List String → Option String → Except HttpError JsonVal × List Payload
  | [], lastError =>
      (Except.error ⟨500,
        "All GLM models failed to analyze report. Last error: " ++ pyStr lastError⟩, [])
  | m :: rest, lastError =>
      match attempt (buildReportsPayload m messages) with
      | AttemptOutcome.ok body =>
          match body.choices with
          | c :: _ =>
              match loads (stripFences c.message.content) with
              | Except.ok v => (Except.ok v, [buildReportsPayload m messages])
              | Except.error e => stepFail (buildReportsPayload m messages)
                  (reportsLoopGo loads attempt messages rest (some e))
          | [] => stepFail (buildReportsPayload m messages)
              (reportsLoopGo loads attempt messages rest (some ("list index out of range")))
      | AttemptOutcome.fail e => stepFail (buildReportsPayload m messages)
          (reportsLoopGo loads attempt messages rest (some e))
/-- `reports.py::call_glm_for_analysis` (lines 78-211): API-key check, then
the fallback loop.  Prompt assembly from the extracted text of the report and
parsed values (lines 96-134) is abstracted into the `messages` argument:
it renders floats and touches no claim. -/
def call_glm_for_analysis (apiKey : Option String)
    (loads : String → Except String JsonVal) (attempt : Payload → AttemptOutcome)
    (messages : List ChatMsg) : Except HttpError JsonVal × List Payload :=
  if truthy apiKey then
    reportsLoopGo loads attempt messages models_to_try_reports none
  else
    (Except.error ⟨500, "OPENROUTER_API_KEY not configured"⟩, [])
/-- One processed medical-record dict as assembled by
`chat.py::process_medical_records_from_storage` (lines 229-256).
`calculate_confidence` only tests the list for emptiness. -/
structure MedRecord where
  id : String
  source_file : String
  file_type : String
  content : String
  processed_date : String
deriving DecidableEq
/-- The `uncertain_phrases` list of `chat.py::calculate_confidence`
(lines 339-343). -/
def uncertain_phrases : List String :=
  ["may", "might", "possibly", "unclear", "uncertain",
   "don\x27t have enough", "cannot determine", "insufficient data",
   "would need more", "consult with", "speak to your doctor"]
/-- The `medical_terms` list of `chat.py::calculate_confidence` (line 347). -/
def medical_terms : List String :=
  ["diagnosis", "test result", "level", "range", "normal", "abnormal"]
/-- `chat.py::calculate_confidence` (lines 325-351), over exact rationals in
place of IEEE floats: start at 0.3; +0.3 when records are present; +0.2 when
the answer carries a digit; -0.25 when an uncertainty phrase occurs; +0.15
when a medical term occurs; clamp into [0.1, 1.0] at the end. -/
def calculate_confidence (question : String) (medical_records : List MedRecord)
    (answer : String) : ℚ :=
  let c0 : ℚ := 0.3
  let c1 := if medical_records.isEmpty then c0 else c0 + 0.3
  let c2 := if answer.data.any Char.isDigit then c1 + 0.2 else c1
  let c3 := if uncertain_phrases.any (fun p => pyInStr p (pyLower answer)) then c2 - 0.25 else c2
  let c4 := if medical_terms.any (fun t => pyInStr t (pyLower answer)) then c3 + 0.15 else c3
  max 0.1 (min 1.0 c4)
/-- One explanation dict as assembled by `reports.py::explain_medical_report`
(lines 499-508) and stored under `report_explanations`. -/
structure ExplanationData where
  record_id : String
  simple_summary : String
  key_findings : List String
  overall_health_score : Int
  risk_level : String
  concerns : List String
  next_steps : List String
  explanation_generated_at : String
deriving DecidableEq
/-- The JSON-file database of `reports.py`
(`\x7b"medical_records": [...], "report_explanations": [...]\x7d`).  Medical
records are opaque dicts to `insert_explanation`. -/
structure Database where
  medical_records : List (List (String × JsonVal))
  report_explanations : List ExplanationData
/-- `reports.py::insert_explanation` (lines 240-252): load the database,
drop any existing explanation with the same `record_id`, append the new one,
save.  File I/O (`load_database`/`save_database`) becomes explicit state
passing; the returned pair is (new database state, returned value). -/
def insert_explanation (db : Database) (explanation_data : ExplanationData) :
    Database × ExplanationData :=
  ({ db with report_explanations :=
      (db.report_explanations.filter
        (fun exp2 => exp2.record_id != explanation_data.record_id)) ++ [explanation_data] },
   explanation_data)
def cDb : Database := ⟨[], []⟩
def cExp : ExplanationData := ⟨"r1", "sum", [], 50, "LOW", [], [], "t0"⟩
def wMsgs : List ChatMsg := [⟨"user", "hi"⟩]
def wBody : Body := ⟨[⟨⟨"hello"⟩⟩]⟩
def wAttemptC1 : Payload → AttemptOutcome := fun p =>
  if p.model = "m2" then AttemptOutcome.ok wBody else AttemptOutcome.fail ("boom")
def wAttemptFail : Payload → AttemptOutcome := fun p =>
  AttemptOutcome.fail ("err-" ++ p.model)
def c3Loads : String → Except String JsonVal := fun s =>
  if s = ("\x7b\x7d") then Except.ok (JsonVal.obj [])
  else Except.error ("Expecting value: line 1 column 1 (char 0)")
def c3Attempt : Payload → AttemptOutcome := fun p =>
  if p.model = ("zhipuai/glm-4-plus") then
    AttemptOutcome.ok ⟨[⟨⟨"the model chatted instead of emitting JSON"⟩⟩]⟩
  else AttemptOutcome.ok ⟨[⟨⟨"\x7b\x7d"⟩⟩]⟩
def promptHead (data : SymptomRequest) : String :=
  "\nAnalyze the following patient data for a symptom assessment:\n- Symptoms Description: "
  ++ data.symptoms ++ "\n- Age: " ++ toString data.age ++ " years, Gender: "
  ++ data.gender ++ "\n- Duration: " ++ data.duration ++ "\n- Severity: "
  ++ toString data.severity ++ "/10" ++ "\n\n"
def promptTail : String := "\n\nProvide your response as a valid JSON object only.\n"
/-- Marks a computation that ended in a raised exception. -/
def exceptFailed : Except HttpError SymptomAssessment → Bool
  | Except.error _ => true
  | Except.ok _ => false
/-- Marks a validation that raised. -/
def validationFailed : Except String SymptomAssessment → Bool
  | Except.error _ => true
  | Except.ok _ => false
def c6Data : SymptomRequest := ⟨"fever", 30, "F", "2 days", 5⟩
def c6Body : Body := ⟨[⟨⟨"\x7b\"assessment_id\": \"abc\"\x7d"⟩⟩]⟩
def c6Loads : String → Except String JsonVal := fun s =>
  if s = ("\x7b\"assessment_id\": \"abc\"\x7d") then
    Except.ok (JsonVal.obj [("assessment_id", JsonVal.str ("abc"))])
  else Except.error ("Expecting value: line 1 column 1 (char 0)")
def c6Attempt : Payload → AttemptOutcome := fun _ => AttemptOutcome.ok c6Body
def w8Loads : String → Except String JsonVal := fun _ =>
  Except.error ("Expecting value: line 1 column 1 (char 0)")
/-! ## Helper lemmas -/
theorem pyStripList_ipfx_dropWhile (l : List Char) :
    pyStripList l <+: l.dropWhile pyWhitespace := by
  unfold pyStripList
  have h : List.dropWhile pyWhitespace (List.dropWhile pyWhitespace l).reverse <:+
      (List.dropWhile pyWhitespace l).reverse := List.dropWhile_suffix _
  have h2 := List.reverse_prefix.mpr h
  rwa [List.reverse_reverse] at h2
theorem pyStripList_infx (l : List Char) : pyStripList l <:+: l := by
  have h1 : pyStripList l <+: l.dropWhile pyWhitespace := pyStripList_ipfx_dropWhile l
  have h2 : l.dropWhile pyWhitespace <:+ l := List.dropWhile_suffix pyWhitespace
  exact h1.isInfix.trans h2.isInfix
theorem dropLeadFence_sfx (r : List Char) : dropLeadFence r <:+ r := by
  unfold dropLeadFence
  split
  · exact List.drop_suffix 7 r
  · split
    · exact List.drop_suffix 3 r
    · exact List.suffix_refl r
theorem dropTrailFence_pfx (r : List Char) : dropTrailFence r <+: r := by
  unfold dropTrailFence
  split
  · exact List.take_prefix _ r
  · exact List.prefix_refl r
theorem stripFencesList_infx (raw : List Char) : stripFencesList raw <:+: raw := by
  unfold stripFencesList
  split
  · exact (pyStripList_infx _).trans ((dropTrailFence_pfx _).isInfix.trans
      ((dropLeadFence_sfx _).isInfix.trans (pyStripList_infx raw)))
  · exact List.infix_rfl
theorem stripFences_no_fence (t : String)
    (h : ("```".data.isPrefixOf (pyStripList t.data)) = false) : stripFences t = t := by
  have hc : ¬ (("```".data.isPrefixOf (pyStripList t.data)) = true) := by simp [h]
  unfold stripFences stripFencesList
  rw [if_neg hc]
/-! ## Claim theorems -/
/-- C4 counterexample: the normalizer is not idempotent.  On a raw text made
of a tagged fence, an inner fence, a letter and a trailing fence, one pass
yields a text still opening with a fence (the leading tag and the trailing
fence are consumed), and a second pass strips again. -/
theorem C4_counterexample :
    stripFences (stripFences ("```json```x```")) ≠ stripFences ("```json```x```") := by
  decide
/-- C4 (amended): the normalizer removes the tagged fence wrapping of the
JSON example of the spec; it returns any input that does not begin (after stripping)
with a fence delimiter unchanged; and it is idempotent on every input whose
normalized form does not itself begin with a fence delimiter (full
idempotence fails, see the counterexample). -/
theorem C4_normalize_amended :
    stripFences ("```json\n\x7b\"a\":1\x7d\n```") = ("\x7b\"a\":1\x7d")
    ∧ (∀ t : String, ("```".data.isPrefixOf (pyStripList t.data)) = false →
        stripFences t = t)
    ∧ (∀ t : String, ("```".data.isPrefixOf (pyStripList (stripFences t).data)) = false →
        stripFences (stripFences t) = stripFences t) :=
  ⟨by decide, fun t h => stripFences_no_fence t h,
   fun t h => stripFences_no_fence (stripFences t) h⟩
/-- C4 witness: a clean JSON payload carries no fence, so normalization
leaves it unchanged. -/
theorem C4_witness :
    ("```".data.isPrefixOf (pyStripList ("\x7b\"a\":1\x7d" : String).data)) = false
    ∧ stripFences ("\x7b\"a\":1\x7d") = ("\x7b\"a\":1\x7d") :=
  ⟨by decide, C4_normalize_amended.2.1 ("\x7b\"a\":1\x7d") (by decide)⟩
/-- C7: with the API-key secret absent from the environment, each of the
three clients fails immediately with its configuration error and issues
zero requests (empty attempt trace), for every transport behavior, message
list, parser and request. -/
theorem C7_missing_key_no_attempts (attempt : Payload → AttemptOutcome)
    (messages : List ChatMsg) (assessment_id : String)
    (loads : String → Except String JsonVal) (data : SymptomRequest) :
    call_glm_model none attempt messages =
      (Except.error ⟨500, "OPENROUTER_API_KEY not configured"⟩, [])
    ∧ analyze_symptoms none assessment_id loads attempt data =
      (Except.error ⟨502, "OpenRouter API Key is not configured in .env"⟩, [])
    ∧ call_glm_for_analysis none loads attempt messages =
      (Except.error ⟨500, "OPENROUTER_API_KEY not configured"⟩, []) :=
  ⟨rfl, rfl, rfl⟩
/-- C9: `calculate_confidence` always lands in [0.1, 1.0]: the accumulated
additions and subtractions are clamped into this interval at the end. -/
theorem C9_confidence_bounds (question : String) (medical_records : List MedRecord)
    (answer : String) :
    (0.1 : ℚ) ≤ calculate_confidence question medical_records answer
    ∧ calculate_confidence question medical_records answer ≤ 1.0 := by
  have h : ∀ x : ℚ, (0.1 : ℚ) ≤ max 0.1 (min 1.0 x) ∧ max 0.1 (min 1.0 x) ≤ 1.0 :=
    fun x => ⟨le_max_left _ _, max_le (by norm_num) (min_le_left _ _)⟩
  exact h _
theorem filter_dedup_self (l : List ExplanationData) (e : ExplanationData) :
    ((l.filter (fun x => x.record_id != e.record_id)) ++ [e]).filter
      (fun x => x.record_id == e.record_id) = [e] := by
  rw [List.filter_append, List.filter_filter]
  have h1 : l.filter
      (fun a => a.record_id == e.record_id && a.record_id != e.record_id) = [] := by
    apply List.filter_eq_nil_iff.mpr
    intro a _
    by_cases h : a.record_id = e.record_id <;> simp [h]
  rw [h1]
  simp
theorem filter_dedup_other (l : List ExplanationData) (e : ExplanationData) (rid : String)
    (h : rid ≠ e.record_id) :
    ((l.filter (fun x => x.record_id != e.record_id)) ++ [e]).filter
      (fun x => x.record_id == rid) = l.filter (fun x => x.record_id == rid) := by
  rw [List.filter_append, List.filter_filter]
  have h1 : (fun a : ExplanationData => a.record_id == rid && a.record_id != e.record_id)
      = fun a => a.record_id == rid := by
    funext a
    by_cases h2 : a.record_id = rid
    · have h3 : a.record_id ≠ e.record_id := by rw [h2]; exact h
      simp [h2, h3, h]
    · simp [h2]
  rw [h1]
  have h2 : List.filter (fun x => x.record_id == rid) [e] = [] := by
    have h3 : e.record_id ≠ rid := Ne.symm h
    simp [h3]
  rw [h2]
  simp
/-- C10: `insert_explanation` leaves exactly one explanation for the new
record id (the inserted one), leaves the explanations of every other record
id untouched, does not touch medical records, and hence preserves the
at-most-one-explanation-per-record-id invariant. -/
theorem C10_insert_explanation_unique (db : Database) (e : ExplanationData) :
    ((insert_explanation db e).1.report_explanations.filter
        (fun x => x.record_id == e.record_id)) = [e]
    ∧ (∀ rid, rid ≠ e.record_id →
        (insert_explanation db e).1.report_explanations.filter
            (fun x => x.record_id == rid) =
          db.report_explanations.filter (fun x => x.record_id == rid))
    ∧ (insert_explanation db e).1.medical_records = db.medical_records
    ∧ ((∀ rid, (db.report_explanations.filter
          (fun x => x.record_id == rid)).length ≤ 1) →
        ∀ rid, ((insert_explanation db e).1.report_explanations.filter
          (fun x => x.record_id == rid)).length ≤ 1) := by
  refine ⟨filter_dedup_self db.report_explanations e, ?other, rfl, ?inv⟩
  case other =>
    intro rid hrid
    exact filter_dedup_other db.report_explanations e rid hrid
  case inv =>
    intro hinv rid
    by_cases h : rid = e.record_id
    · subst h
      show ((db.report_explanations.filter (fun x => x.record_id != e.record_id)
          ++ [e]).filter (fun x => x.record_id == e.record_id)).length ≤ 1
      rw [filter_dedup_self db.report_explanations e]
      simp
    · show ((db.report_explanations.filter (fun x => x.record_id != e.record_id)
          ++ [e]).filter (fun x => x.record_id == rid)).length ≤ 1
      rw [filter_dedup_other db.report_explanations e rid h]
      exact hinv rid
/-- C10 witness: inserting into the empty database yields exactly the new
explanation for its record id, and the invariant instance holds there. -/
theorem C10_witness :
    ((insert_explanation cDb cExp).1.report_explanations.filter
        (fun x => x.record_id == cExp.record_id)) = [cExp]
    ∧ ((insert_explanation cDb cExp).1.report_explanations.filter
        (fun x => x.record_id == ("r1"))).length ≤ 1 :=
  ⟨(C10_insert_explanation_unique cDb cExp).1,
   (C10_insert_explanation_unique cDb cExp).2.2.2 (fun rid => by simp [cDb]) ("r1")⟩
theorem chatLoop_success (attempt : Payload → AttemptOutcome) (messages : List ChatMsg)
    (mN : String) (body : Body) (c : Choice) (cs : List Choice) (rest : List String)
    (hN : attempt (buildChatPayload mN messages) = AttemptOutcome.ok body)
    (hc : body.choices = c :: cs) :
    ∀ (front : List String) (lastE : Option String),
      (∀ m ∈ front, ∃ e, attempt (buildChatPayload m messages) = AttemptOutcome.fail e) →
      chatLoopGo attempt messages (front ++ mN :: rest) lastE =
        (Except.ok c.message.content,
         (front ++ [mN]).map (fun m => buildChatPayload m messages)) := by
  intro front
  induction front with
  | nil =>
      intro lastE _
      simp [chatLoopGo, hN, hc]
  | cons a t ih =>
      intro lastE hf
      obtain ⟨e, he⟩ := hf a (List.mem_cons_self a t)
      have ht : ∀ m ∈ t, ∃ e2, attempt (buildChatPayload m messages) = AttemptOutcome.fail e2 :=
        fun m hm => hf m (List.mem_cons_of_mem a hm)
      simp [chatLoopGo, he, stepFail, ih (some e) ht]
theorem chatLoop_exhaust (attempt : Payload → AttemptOutcome) (messages : List ChatMsg)
    (errf : String → String) (mN : String) :
    ∀ (front : List String) (lastE : Option String),
      (∀ m ∈ front ++ [mN],
        attempt (buildChatPayload m messages) = AttemptOutcome.fail (errf m)) →
      chatLoopGo attempt messages (front ++ [mN]) lastE =
        (Except.error ⟨500, "All GLM models failed. Last error: " ++ errf mN⟩,
         (front ++ [mN]).map (fun m => buildChatPayload m messages)) := by
  intro front
  induction front with
  | nil =>
      intro lastE hf
      have h := hf mN (List.mem_singleton.mpr rfl)
      simp [chatLoopGo, h, stepFail, pyStr]
  | cons a t ih =>
      intro lastE hf
      have ha := hf a (List.mem_cons_self a (t ++ [mN]))
      have ht : ∀ m ∈ t ++ [mN],
          attempt (buildChatPayload m messages) = AttemptOutcome.fail (errf m) :=
        fun m hm => hf m (List.mem_cons_of_mem a hm)
      simp [chatLoopGo, ha, stepFail, ih (some (errf a)) ht]
theorem symptomLoop_success (attempt : Payload → AttemptOutcome) (sys usr : String)
    (mN : String) (body : Body) (rest : List String)
    (hN : attempt (buildSymptomPayload mN sys usr) = AttemptOutcome.ok body) :
    ∀ (front : List String) (lastE : Option String),
      (∀ m ∈ front, ∃ e, attempt (buildSymptomPayload m sys usr) = AttemptOutcome.fail e) →
      symptomLoopGo attempt sys usr (front ++ mN :: rest) lastE =
        (Except.ok body,
         (front ++ [mN]).map (fun m => buildSymptomPayload m sys usr)) := by
  intro front
  induction front with
  | nil =>
      intro lastE _
      simp [symptomLoopGo, hN]
  | cons a t ih =>
      intro lastE hf
      obtain ⟨e, he⟩ := hf a (List.mem_cons_self a t)
      have ht : ∀ m ∈ t, ∃ e2, attempt (buildSymptomPayload m sys usr) = AttemptOutcome.fail e2 :=
        fun m hm => hf m (List.mem_cons_of_mem a hm)
      simp [symptomLoopGo, he, stepFail, ih (some e) ht]
theorem symptomLoop_exhaust (attempt : Payload → AttemptOutcome) (sys usr : String)
    (errf : String → String) (mN : String) :
    ∀ (front : List String) (lastE : Option String),
      (∀ m ∈ front ++ [mN],
        attempt (buildSymptomPayload m sys usr) = AttemptOutcome.fail (errf m)) →
      symptomLoopGo attempt sys usr (front ++ [mN]) lastE =
        (Except.error ⟨500,
          "All GLM models failed. Please check your API key. Last error: " ++ errf mN⟩,
         (front ++ [mN]).map (fun m => buildSymptomPayload m sys usr)) := by
  intro front
  induction front with
  | nil =>
      intro lastE hf
      have h := hf mN (List.mem_singleton.mpr rfl)
      simp [symptomLoopGo, h, stepFail, pyStr]
  | cons a t ih =>
      intro lastE hf
      have ha := hf a (List.mem_cons_self a (t ++ [mN]))
      have ht : ∀ m ∈ t ++ [mN],
          attempt (buildSymptomPayload m sys usr) = AttemptOutcome.fail (errf m) :=
        fun m hm => hf m (List.mem_cons_of_mem a hm)
      simp [symptomLoopGo, ha, stepFail, ih (some (errf a)) ht]
/-- C1: for a configured model list `front ++ [mN]` of length N on which
models 1..N-1 fail at the transport level and model N returns a
transport-success response whose body carries at least one completion, both
fallback clients issue exactly one request per configured model, in order
(the trace is the configured list mapped through the payload builder, hence
exactly N = front.length + 1 attempts and no attempt N+1), the chat loop
returns the first-completion message content of model N, and the symptom
loop hands the body of model N onward. -/
theorem C1_first_success_returns_last_model_content
    (attempt : Payload → AttemptOutcome) (messages : List ChatMsg) (sys usr : String)
    (front : List String) (mN : String) (body : Body) (c : Choice) (cs : List Choice)
    (hfc : ∀ m ∈ front, ∃ e, attempt (buildChatPayload m messages) = AttemptOutcome.fail e)
    (hfs : ∀ m ∈ front, ∃ e, attempt (buildSymptomPayload m sys usr) = AttemptOutcome.fail e)
    (hNc : attempt (buildChatPayload mN messages) = AttemptOutcome.ok body)
    (hNs : attempt (buildSymptomPayload mN sys usr) = AttemptOutcome.ok body)
    (hc : body.choices = c :: cs) :
    chatLoopGo attempt messages (front ++ [mN]) none =
      (Except.ok c.message.content,
       (front ++ [mN]).map (fun m => buildChatPayload m messages))
    ∧ symptomLoopGo attempt sys usr (front ++ [mN]) none =
      (Except.ok body, (front ++ [mN]).map (fun m => buildSymptomPayload m sys usr))
    ∧ ((front ++ [mN]).map (fun m => buildChatPayload m messages)).length
        = front.length + 1 := by
  refine ⟨chatLoop_success attempt messages mN body c cs [] hNc hc front none hfc,
          symptomLoop_success attempt sys usr mN body [] hNs front none hfs, ?len⟩
  case len => simp
/-- C1 witness: two configured models, the first failing and the second
succeeding with one completion. -/
theorem C1_witness :
    chatLoopGo wAttemptC1 wMsgs (["m1"] ++ ["m2"]) none =
      (Except.ok ("hello"), (["m1"] ++ ["m2"]).map (fun m => buildChatPayload m wMsgs))
    ∧ symptomLoopGo wAttemptC1 ("s") ("u") (["m1"] ++ ["m2"]) none =
      (Except.ok wBody, (["m1"] ++ ["m2"]).map (fun m => buildSymptomPayload m ("s") ("u")))
    ∧ ((["m1"] ++ ["m2"]).map (fun m => buildChatPayload m wMsgs)).length
        = (["m1"] : List String).length + 1 :=
  C1_first_success_returns_last_model_content wAttemptC1 wMsgs ("s") ("u")
    ["m1"] ("m2") wBody ⟨⟨"hello"⟩⟩ []
    (fun m hm => by
      rw [List.mem_singleton] at hm
      subst hm
      exact ⟨"boom", by decide⟩)
    (fun m hm => by
      rw [List.mem_singleton] at hm
      subst hm
      exact ⟨"boom", by decide⟩)
    (by decide) (by decide) rfl
/-- C2: when every model of the configured list `front ++ [mN]` fails, both
fallback clients issue exactly one request per configured model in order
(N = front.length + 1 attempts: no backoff, no repeat, no attempt N+1) and
terminate with the aggregate 500 whose detail is built from the last
error of the last attempted model alone — the errors of models 1..N-1 do not appear
in it. -/
theorem C2_exhaustion_last_error
    (attempt : Payload → AttemptOutcome) (messages : List ChatMsg) (sys usr : String)
    (errf : String → String) (front : List String) (mN : String)
    (hfc : ∀ m ∈ front ++ [mN],
      attempt (buildChatPayload m messages) = AttemptOutcome.fail (errf m))
    (hfs : ∀ m ∈ front ++ [mN],
      attempt (buildSymptomPayload m sys usr) = AttemptOutcome.fail (errf m)) :
    chatLoopGo attempt messages (front ++ [mN]) none =
      (Except.error ⟨500, "All GLM models failed. Last error: " ++ errf mN⟩,
       (front ++ [mN]).map (fun m => buildChatPayload m messages))
    ∧ symptomLoopGo attempt sys usr (front ++ [mN]) none =
      (Except.error ⟨500,
        "All GLM models failed. Please check your API key. Last error: " ++ errf mN⟩,
       (front ++ [mN]).map (fun m => buildSymptomPayload m sys usr))
    ∧ ((front ++ [mN]).map (fun m => buildChatPayload m messages)).length
        = front.length + 1 := by
  refine ⟨chatLoop_exhaust attempt messages errf mN front none hfc,
          symptomLoop_exhaust attempt sys usr errf mN front none hfs, ?len⟩
  case len => simp
/-- C2 witness: two configured models, both failing; the aggregate error
carries only the error text of the second model. -/
theorem C2_witness :
    chatLoopGo wAttemptFail wMsgs (["m1"] ++ ["m2"]) none =
      (Except.error ⟨500, "All GLM models failed. Last error: " ++ ("err-" ++ "m2")⟩,
       (["m1"] ++ ["m2"]).map (fun m => buildChatPayload m wMsgs))
    ∧ symptomLoopGo wAttemptFail ("s") ("u") (["m1"] ++ ["m2"]) none =
      (Except.error ⟨500,
        "All GLM models failed. Please check your API key. Last error: " ++ ("err-" ++ "m2")⟩,
       (["m1"] ++ ["m2"]).map (fun m => buildSymptomPayload m ("s") ("u")))
    ∧ ((["m1"] ++ ["m2"]).map (fun m => buildChatPayload m wMsgs)).length
        = (["m1"] : List String).length + 1 :=
  C2_exhaustion_last_error wAttemptFail wMsgs ("s") ("u") (fun m => "err-" ++ m)
    ["m1"] ("m2")
    (fun m _ => rfl) (fun m _ => by
      unfold wAttemptFail buildSymptomPayload
      split <;> rfl)
theorem symptomLoop_trace_mem (attempt : Payload → AttemptOutcome) (sys usr : String) :
    ∀ (models : List String) (lastE : Option String) (p : Payload),
      p ∈ (symptomLoopGo attempt sys usr models lastE).2 →
      ∃ m ∈ models, p = buildSymptomPayload m sys usr := by
  intro models
  induction models with
  | nil =>
      intro lastE p hp
      simp [symptomLoopGo] at hp
  | cons a t ih =>
      intro lastE p hp
      cases h : attempt (buildSymptomPayload a sys usr) with
      | ok body =>
          simp [symptomLoopGo, h] at hp
          exact ⟨a, List.mem_cons_self a t, hp⟩
      | fail e =>
          simp [symptomLoopGo, h, stepFail] at hp
          rcases hp with hp | hp
          · exact ⟨a, List.mem_cons_self a t, hp⟩
          · obtain ⟨m, hm, hpm⟩ := ih (some e) p hp
            exact ⟨m, List.mem_cons_of_mem a hm, hpm⟩
/-- C5: in the symptom-analysis fallback loop, every request payload actually
POSTed carries the structured-output directive (`response_format` of type
`json_object`) if and only if its model identifier contains `gpt` or
`deepseek` case-insensitively — for every configured model list, transport
behavior and prompt pair. -/
theorem C5_response_format_iff (attempt : Payload → AttemptOutcome) (sys usr : String)
    (models : List String) (lastE : Option String) (p : Payload)
    (hp : p ∈ (symptomLoopGo attempt sys usr models lastE).2) :
    p.response_format = some ("json_object") ↔
      (pyInStr ("gpt") (pyLower p.model) || pyInStr ("deepseek") (pyLower p.model)) = true := by
  obtain ⟨m, _, rfl⟩ := symptomLoop_trace_mem attempt sys usr models lastE p hp
  by_cases h : (pyInStr ("gpt") (pyLower m) || pyInStr ("deepseek") (pyLower m)) = true
  · simp [buildSymptomPayload, h]
  · simp [buildSymptomPayload, h]
/-- C5 witness: in a run over the configured symptom model list, the
payload of the gpt-tagged model is in the trace and satisfies the
capability-table equivalence. -/
theorem C5_witness :
    buildSymptomPayload ("openai/gpt-3.5-turbo") ("s") ("u") ∈
      (symptomLoopGo wAttemptFail ("s") ("u") models_to_try_symptom none).2
    ∧ ((buildSymptomPayload ("openai/gpt-3.5-turbo") ("s") ("u")).response_format
        = some ("json_object") ↔
      (pyInStr ("gpt") (pyLower (buildSymptomPayload ("openai/gpt-3.5-turbo") ("s") ("u")).model)
        || pyInStr ("deepseek")
          (pyLower (buildSymptomPayload ("openai/gpt-3.5-turbo") ("s") ("u")).model)) = true) :=
  ⟨by decide,
   C5_response_format_iff wAttemptFail ("s") ("u") models_to_try_symptom none
     (buildSymptomPayload ("openai/gpt-3.5-turbo") ("s") ("u")) (by decide)⟩
theorem reportsLoop_parse_success (loads : String → Except String JsonVal)
    (attempt : Payload → AttemptOutcome) (messages : List ChatMsg)
    (mN : String) (body : Body) (c : Choice) (cs : List Choice) (v : JsonVal)
    (rest : List String)
    (hN : attempt (buildReportsPayload mN messages) = AttemptOutcome.ok body)
    (hc : body.choices = c :: cs)
    (hv : loads (stripFences c.message.content) = Except.ok v) :
    ∀ (front : List String) (lastE : Option String),
      (∀ m ∈ front, ∃ e, attempt (buildReportsPayload m messages) = AttemptOutcome.fail e) →
      reportsLoopGo loads attempt messages (front ++ mN :: rest) lastE =
        (Except.ok v, (front ++ [mN]).map (fun m => buildReportsPayload m messages)) := by
  intro front
  induction front with
  | nil =>
      intro lastE _
      simp [reportsLoopGo, hN, hc, hv]
  | cons a t ih =>
      intro lastE hf
      obtain ⟨e, he⟩ := hf a (List.mem_cons_self a t)
      have ht : ∀ m ∈ t, ∃ e2, attempt (buildReportsPayload m messages) = AttemptOutcome.fail e2 :=
        fun m hm => hf m (List.mem_cons_of_mem a hm)
      simp [reportsLoopGo, he, stepFail, ih (some e) ht]
/-- C3 counterexample: in `call_glm_for_analysis`, the first configured model
answers with a transport-success response whose content is not JSON, yet the
run issues a second request and returns the parsed analysis of the second model:
the malformed output was swallowed and retried against the next model in the
chain, not surfaced to the caller. -/
theorem C3_counterexample :
    c3Attempt (buildReportsPayload ("zhipuai/glm-4-plus") []) =
      AttemptOutcome.ok ⟨[⟨⟨"the model chatted instead of emitting JSON"⟩⟩]⟩
    ∧ call_glm_for_analysis (some ("k")) c3Loads c3Attempt [] =
      (Except.ok (JsonVal.obj []),
       [buildReportsPayload ("zhipuai/glm-4-plus") [],
        buildReportsPayload ("zhipuai/glm-4-0520") []]) :=
  ⟨rfl, rfl⟩
/-- C3 (amended): in `analyze_symptoms` the first transport-success ends the
fallback loop at once (no further models tried) and content that then fails
JSON parsing is surfaced as a 500 malformed-output error; in
`call_glm_for_analysis` a transport success whose cleaned content parses as
JSON is returned immediately with no further models tried, but content that
fails JSON parsing is recorded as the last error and the loop continues with
the next model (swallowed and retried, unlike the claim). -/
theorem C3_transport_success_amended
    (loads : String → Except String JsonVal) (attempt : Payload → AttemptOutcome)
    (messages : List ChatMsg) (sys usr : String)
    (front : List String) (mN : String) (rest : List String) (body : Body)
    (c : Choice) (cs : List Choice) (v : JsonVal) (e : String)
    (hfs : ∀ m ∈ front, ∃ e2, attempt (buildSymptomPayload m sys usr) = AttemptOutcome.fail e2)
    (hfr : ∀ m ∈ front, ∃ e2, attempt (buildReportsPayload m messages) = AttemptOutcome.fail e2)
    (hNs : attempt (buildSymptomPayload mN sys usr) = AttemptOutcome.ok body)
    (hNr : attempt (buildReportsPayload mN messages) = AttemptOutcome.ok body)
    (hc : body.choices = c :: cs) :
    symptomLoopGo attempt sys usr (front ++ mN :: rest) none =
      (Except.ok body, (front ++ [mN]).map (fun m => buildSymptomPayload m sys usr))
    ∧ (loads (stripFences c.message.content) = Except.error e →
        symptomPost loads body = Except.error ⟨500,
          "AI returned malformed JSON. Raw response (truncated): " ++
            pySlice (stripFences c.message.content) 1000⟩)
    ∧ (loads (stripFences c.message.content) = Except.ok v →
        reportsLoopGo loads attempt messages (front ++ mN :: rest) none =
          (Except.ok v, (front ++ [mN]).map (fun m => buildReportsPayload m messages)))
    ∧ (loads (stripFences c.message.content) = Except.error e →
        reportsLoopGo loads attempt messages (mN :: rest) none =
          stepFail (buildReportsPayload mN messages)
            (reportsLoopGo loads attempt messages rest (some e))) := by
  refine ⟨symptomLoop_success attempt sys usr mN body rest hNs front none hfs,
          ?ps, ?rs, ?rsw⟩
  case ps =>
    intro he
    simp [symptomPost, hc, he]
  case rs =>
    intro hv
    exact reportsLoop_parse_success loads attempt messages mN body c cs v rest hNr hc hv
      front none hfr
  case rsw =>
    intro he
    simp [reportsLoopGo, hNr, hc, he]
/-- C3 witness: concrete instances of the amended behavior with the stub
transport of the counterexample. -/
theorem C3_witness :
    symptomLoopGo c3Attempt ("s") ("u") ([] ++ "zhipuai/glm-4-plus" :: []) none =
      (Except.ok ⟨[⟨⟨"the model chatted instead of emitting JSON"⟩⟩]⟩,
       ([] ++ ["zhipuai/glm-4-plus"]).map (fun m => buildSymptomPayload m ("s") ("u")))
    ∧ symptomPost c3Loads ⟨[⟨⟨"the model chatted instead of emitting JSON"⟩⟩]⟩ =
        Except.error ⟨500, "AI returned malformed JSON. Raw response (truncated): " ++
          pySlice (stripFences ("the model chatted instead of emitting JSON")) 1000⟩
    ∧ reportsLoopGo c3Loads c3Attempt [] ([] ++ "zhipuai/glm-4-0520" :: []) none =
        (Except.ok (JsonVal.obj []),
         ([] ++ ["zhipuai/glm-4-0520"]).map (fun m => buildReportsPayload m []))
    ∧ reportsLoopGo c3Loads c3Attempt [] ("zhipuai/glm-4-plus" :: []) none =
        stepFail (buildReportsPayload ("zhipuai/glm-4-plus") [])
          (reportsLoopGo c3Loads c3Attempt [] []
            (some ("Expecting value: line 1 column 1 (char 0)"))) := by
  have happ := C3_transport_success_amended c3Loads c3Attempt [] ("s") ("u") []
    ("zhipuai/glm-4-plus") [] ⟨[⟨⟨"the model chatted instead of emitting JSON"⟩⟩]⟩
    ⟨⟨"the model chatted instead of emitting JSON"⟩⟩ [] (JsonVal.obj [])
    ("Expecting value: line 1 column 1 (char 0)")
    (fun m hm => absurd hm (List.not_mem_nil m))
    (fun m hm => absurd hm (List.not_mem_nil m))
    rfl rfl rfl
  have happ2 := C3_transport_success_amended c3Loads c3Attempt [] ("s") ("u") []
    ("zhipuai/glm-4-0520") [] ⟨[⟨⟨"\x7b\x7d"⟩⟩]⟩ ⟨⟨"\x7b\x7d"⟩⟩ [] (JsonVal.obj [])
    ("Expecting value: line 1 column 1 (char 0)")
    (fun m hm => absurd hm (List.not_mem_nil m))
    (fun m hm => absurd hm (List.not_mem_nil m))
    rfl rfl rfl
  exact ⟨happ.1, happ.2.1 rfl, happ2.2.2.1 rfl, happ.2.2.2 rfl⟩
/-- C6: for every symptom request, the assembled user prompt pins the freshly
generated assessment identifier directly behind the echo instruction
(`promptHead`/`promptTail` split the prompt around the pinned id); and when a
model response parses to a JSON object missing `urgency_level`, schema
validation fails and the request errors instead of defaulting silently —
both at the level of `validateSymptomAssessment` and end to end through
`analyze_symptoms`. -/
theorem C6_prompt_and_validation
    (data : SymptomRequest) (assessment_id : String) (apiKey : Option String)
    (loads : String → Except String JsonVal) (attempt : Payload → AttemptOutcome)
    (body : Body) (tr : List Payload) (c : Choice) (cs : List Choice)
    (fields : List (String × JsonVal))
    (hkey : truthy apiKey = true)
    (hloop : symptomLoopGo attempt system_instruction (user_prompt data assessment_id)
        models_to_try_symptom none = (Except.ok body, tr))
    (hch : body.choices = c :: cs)
    (hparse : loads (stripFences c.message.content) = Except.ok (JsonVal.obj fields))
    (hmiss : lookupField fields ("urgency_level") = none) :
    user_prompt data assessment_id = promptHead data ++
        ("The assessment_id field MUST be set to: " ++ (assessment_id ++ promptTail))
    ∧ validationFailed (validateSymptomAssessment fields) = true
    ∧ exceptFailed (analyze_symptoms apiKey assessment_id loads attempt data).1
        = true := by
  have hval : ∃ msg, validateSymptomAssessment fields = Except.error msg := by
    unfold validateSymptomAssessment
    cases h1 : reqStr fields ("assessment_id") with
    | error m =>
        exact ⟨m, rfl⟩
    | ok a =>
        have h2 : reqStr fields ("urgency_level") =
            Except.error ("Field required or invalid: " ++ "urgency_level") := by
          unfold reqStr
          rw [hmiss]
        refine ⟨"Field required or invalid: " ++ "urgency_level", ?_⟩
        rw [h2]
        rfl
  obtain ⟨msg, hmsg⟩ := hval
  refine ⟨?pin, ?vf, ?errs⟩
  case pin =>
    simp only [user_prompt, promptHead, promptTail, String.append_assoc]
  case vf =>
    rw [hmsg]
    rfl
  case errs =>
    simp [analyze_symptoms, hkey, hloop, symptomPost, hch, hparse, hmsg, exceptFailed]
/-- C6 witness: the request of the example in the spec, an assessment id `abc`,
and a model response missing `urgency_level`. -/
theorem C6_witness :
    truthy (some ("k")) = true
    ∧ lookupField [("assessment_id", JsonVal.str ("abc"))] ("urgency_level") = none
    ∧ (user_prompt c6Data ("abc") = promptHead c6Data ++
        ("The assessment_id field MUST be set to: " ++ ("abc" ++ promptTail))
      ∧ validationFailed
          (validateSymptomAssessment [("assessment_id", JsonVal.str ("abc"))]) = true
      ∧ exceptFailed (analyze_symptoms (some ("k")) ("abc") c6Loads c6Attempt c6Data).1
          = true) :=
  ⟨rfl, rfl,
   C6_prompt_and_validation c6Data ("abc") (some ("k")) c6Loads c6Attempt c6Body
     [buildSymptomPayload ("zhipuai/glm-4-plus") system_instruction
       (user_prompt c6Data ("abc"))]
     ⟨⟨"\x7b\"assessment_id\": \"abc\"\x7d"⟩⟩ []
     [("assessment_id", JsonVal.str ("abc"))]
     rfl rfl rfl rfl rfl⟩
/-- C8: whenever the cleaned model text fails JSON parsing, `analyze_symptoms`
answers 500 with a diagnostic carrying `raw_json_text[:1000]` — a bounded
slice of at most 1000 characters that is a contiguous fragment of the
original raw model text, never the full payload. -/
theorem C8_bounded_snippet (loads : String → Except String JsonVal)
    (body : Body) (c : Choice) (cs : List Choice) (e : String)
    (hch : body.choices = c :: cs)
    (hfail : loads (stripFences c.message.content) = Except.error e) :
    symptomPost loads body = Except.error ⟨500,
      "AI returned malformed JSON. Raw response (truncated): " ++
        pySlice (stripFences c.message.content) 1000⟩
    ∧ (pySlice (stripFences c.message.content) 1000).data.length ≤ 1000
    ∧ (pySlice (stripFences c.message.content) 1000).data <:+: c.message.content.data := by
  refine ⟨by simp [symptomPost, hch, hfail], ?len, ?infx⟩
  case len => exact List.length_take_le 1000 _
  case infx =>
    have h1 : (stripFencesList c.message.content.data).take 1000 <+:
        stripFencesList c.message.content.data := List.take_prefix 1000 _
    exact h1.isInfix.trans (stripFencesList_infx c.message.content.data)
/-- C8 witness: a non-JSON model text of four characters; its snippet is a
bounded fragment of the original text. -/
theorem C8_witness :
    symptomPost w8Loads ⟨[⟨⟨"oops"⟩⟩]⟩ = Except.error ⟨500,
      "AI returned malformed JSON. Raw response (truncated): " ++
        pySlice (stripFences ("oops")) 1000⟩
    ∧ (pySlice (stripFences ("oops")) 1000).data.length ≤ 1000
    ∧ (pySlice (stripFences ("oops")) 1000).data <:+: ("oops" : String).data :=
  C8_bounded_snippet w8Loads ⟨[⟨⟨"oops"⟩⟩]⟩ ⟨⟨"oops"⟩⟩ []
    ("Expecting value: line 1 column 1 (char 0)") rfl rfl
